import Mathlib

/-!
Verification of the Fitbit client in `fitbit.py`.

The embedding models the pure control flow of `_api_request`,
`_refresh_access_token`, `_do_resource_get`, `_do_auth_post` and `get_spo2`.
Network interaction is modelled by an oracle `net : Nat → Response` giving the
response to the n-th network call issued during one call of `_api_request`
(call 0 is the first resource GET, call 1 the token-refresh POST when it is
issued, call 2 the retried GET when it is issued).  Every request actually
issued is recorded in a request log, so statements such as "exactly one
refresh POST" are statements about that log.
-/

namespace Fitdata

/-- A Python dict with string keys and string values, as an association list
(first match wins; Python dicts have unique keys).  This models the `creds`
dict and the `post_data` dicts of `fitbit.py`. -/
abbrev Dict := List (String × String)

/-- Python `d[k]` / `d.get(k)`: value at key `k`, if present. -/
def dictGet : Dict → String → Option String
  | [], _ => none
  | (k1, v) :: rest, k => if k1 = k then some v else dictGet rest k

/-- Python `d.get(k, dflt)`. -/
def dictGetD (d : Dict) (k dflt : String) : String :=
  (dictGet d k).getD dflt

/-- Python `d[k] = v`: update the existing key in place, else append. -/
def dictSet : Dict → String → String → Dict
  | [], k, v => [(k, v)]
  | (k1, v1) :: rest, k, v =>
    if k1 = k then (k, v) :: rest else (k1, v1) :: dictSet rest k v

/-- A JSON value, as returned by `response.json()`. -/
inductive Json where
  | null
  | bool (b : Bool)
  | num (n : Int)
  | str (s : String)
  | arr (elems : List Json)
  | obj (fields : List (String × Json))

/-- Lookup of a key in a list of JSON object fields (first match wins). -/
def jsonFieldGet : List (String × Json) → String → Option Json
  | [], _ => none
  | (k1, v) :: rest, k => if k1 = k then some v else jsonFieldGet rest k

/-- Python `data[k]` where `data = response.json()`, specialised to the string
values the token endpoint returns: succeeds exactly when the body is a JSON
object holding a string at key `k`. -/
def jsonGetStr (j : Json) (k : String) : Option String :=
  match j with
  | .obj fields =>
    match jsonFieldGet fields k with
    | some (.str s) => some s
    | _ => none
  | _ => none

/-- An HTTP response: status code and decoded JSON body. -/
structure Response where
  status : Nat
  body : Json

/-- An HTTP request as issued by the client: method, full URL, headers, and
form body (empty for GET requests). -/
structure Request where
  method : String
  url : String
  headers : Dict
  post_data : Dict
deriving DecidableEq, Repr

/-- The Python exceptions that can escape the functions of `fitbit.py`:
`CredentialsError` (with its optional argument), `httpx.HTTPStatusError`
(carrying the response), and `KeyError` from a failed subscript. -/
inductive PyError where
  | credentialsError (payload : Option Json)
  | httpStatusError (response : Response)
  | keyError (key : String)

/-- httpx `response.is_success`: status in the 2xx range.  `raise_for_status`
raises `HTTPStatusError` exactly when this is false. -/
def isSuccess (status : Nat) : Bool :=
  200 ≤ status && status ≤ 299

/-- The base64 alphabet used by `base64.b64encode`. -/
def base64Alphabet : List Char :=
  "ABCDEFGHIJKLMNOPQRSTUVWXYZabcdefghijklmnopqrstuvwxyz0123456789+/".toList

def base64Char (n : Nat) : Char := base64Alphabet.getD n '='

/-- Standard base64 of a byte sequence (`base64.b64encode`). -/
def b64encodeBytes : List Nat → String
  | [] => ""
  | [a] =>
      String.mk [base64Char (a / 4), base64Char (a % 4 * 16)] ++ "=="
  | [a, b] =>
      String.mk [base64Char (a / 4), base64Char (a % 4 * 16 + b / 16),
                 base64Char (b % 16 * 4)] ++ "="
  | a :: b :: c :: rest =>
      String.mk [base64Char (a / 4), base64Char (a % 4 * 16 + b / 16),
                 base64Char (b % 16 * 4 + c / 64), base64Char (c % 64)]
        ++ b64encodeBytes rest

/-- Python `b64encode(s.encode()).decode()`: base64 of the UTF-8 bytes. -/
def b64encode (s : String) : String :=
  b64encodeBytes (s.toUTF8.toList.map (fun b => b.toNat))

/-- The token endpoint URL used by `_do_auth_post`. -/
def token_url : String := "https://api.fitbit.com/oauth2/token"

/-- The resource base URL used by `_api_request`. -/
def base_url : String := "https://api.fitbit.com/1/user/-/"

/-- The GET request issued by `_do_resource_get`. -/
def resource_get_request (access_token url : String) : Request :=
  ⟨"GET", url, [("Authorization", "Bearer " ++ access_token)], []⟩

/-- The POST request issued by `_do_auth_post`. -/
def auth_post_request (client_id client_secret : String) (pd : Dict) : Request :=
  ⟨"POST", token_url,
   [("Authorization", "Basic " ++ b64encode (client_id ++ ":" ++ client_secret))],
   pd⟩

/-- Outcome of `_refresh_access_token`: the returned access token or the
escaping exception, the (possibly mutated) creds dict, and the requests
issued. -/
structure RefreshOutcome where
  result : Except PyError String
  creds : Dict
  requests : List Request

/-- `_refresh_access_token(client, creds)` of `fitbit.py`, with `resp` the
response the token endpoint gives to the refresh POST.  The `post_data`
subscripts `creds["refresh_token"]` before the POST; `_do_auth_post` raises
for a non-2xx status before `creds` is mutated; on success
`creds["access_token"]` is assigned before `data["refresh_token"]` is read. -/
def _refresh_access_token (creds : Dict) (resp : Response) : RefreshOutcome :=
  match dictGet creds "refresh_token" with
  | none => ⟨.error (.keyError "refresh_token"), creds, []⟩
  | some rt =>
    match dictGet creds "client_id" with
    | none => ⟨.error (.keyError "client_id"), creds, []⟩
    | some cid =>
      match dictGet creds "client_secret" with
      | none => ⟨.error (.keyError "client_secret"), creds, []⟩
      | some csec =>
        let pd : Dict := [("refresh_token", rt), ("grant_type", "refresh_token")]
        let req := auth_post_request cid csec pd
        if isSuccess resp.status then
          match jsonGetStr resp.body "access_token" with
          | none => ⟨.error (.keyError "access_token"), creds, [req]⟩
          | some tok =>
            let creds1 := dictSet creds "access_token" tok
            match jsonGetStr resp.body "refresh_token" with
            | none => ⟨.error (.keyError "refresh_token"), creds1, [req]⟩
            | some rt1 => ⟨.ok tok, dictSet creds1 "refresh_token" rt1, [req]⟩
        else ⟨.error (.httpStatusError resp), creds, [req]⟩

/-- Outcome of `_api_request`: the returned JSON or the escaping exception,
the (possibly mutated) creds dict, and the requests issued in order. -/
structure ApiOutcome where
  result : Except PyError Json
  creds : Dict
  requests : List Request

/-- `_api_request(creds, url_path)` of `fitbit.py`.  `net n` is the response
to the n-th network call.  Empty creds raise a bare `CredentialsError`.
A 401 on the first GET triggers `_refresh_access_token` and one retried GET;
an `HTTPStatusError` from the refresh or the retry is converted to
`CredentialsError(ex.response.json())`; any other first-GET error status is
re-raised unchanged. -/
def _api_request (creds : Dict) (url_path : String) (net : Nat → Response) :
    ApiOutcome :=
  if creds.isEmpty then ⟨.error (.credentialsError none), creds, []⟩
  else
    let access_token := dictGetD creds "access_token" ""
    let url := base_url ++ url_path
    let req1 := resource_get_request access_token url
    let resp1 := net 0
    if isSuccess resp1.status then ⟨.ok resp1.body, creds, [req1]⟩
    else if resp1.status = 401 then
      let ro := _refresh_access_token creds (net 1)
      match ro.result with
      | .error (.httpStatusError r) =>
          ⟨.error (.credentialsError (some r.body)), ro.creds, req1 :: ro.requests⟩
      | .error e => ⟨.error e, ro.creds, req1 :: ro.requests⟩
      | .ok tok =>
          let req2 := resource_get_request tok url
          let resp2 := net 2
          if isSuccess resp2.status then
            ⟨.ok resp2.body, ro.creds, req1 :: ro.requests ++ [req2]⟩
          else
            ⟨.error (.credentialsError (some resp2.body)), ro.creds,
             req1 :: ro.requests ++ [req2]⟩
    else ⟨.error (.httpStatusError resp1), creds, [req1]⟩

/-- A `datetime` value, to the precision `strftime("%Y-%m-%d")` observes. -/
structure Datetime where
  year : Nat
  month : Nat
  day : Nat
deriving DecidableEq, Repr

/-- Zero-padding of a number to a width, as `strftime` does. -/
def padZero (w n : Nat) : String :=
  let s := toString n
  String.mk (List.replicate (w - s.length) '0') ++ s

/-- Python `d.strftime("%Y-%m-%d")`. -/
def strftimeYMD (d : Datetime) : String :=
  padZero 4 d.year ++ "-" ++ padZero 2 d.month ++ "-" ++ padZero 2 d.day

/-- The `url_path` computed by `get_spo2`.  Python `end = end or date` maps
`None` to `date`; a `datetime` object is always truthy. -/
def spo2_url_path (date : Datetime) (endOpt : Option Datetime) : String :=
  let e := endOpt.getD date
  "spo2/date/" ++ strftimeYMD date ++ "/" ++ strftimeYMD e ++ ".json"

/-- `get_spo2(creds, date, end)` of `fitbit.py`. -/
def get_spo2 (creds : Dict) (date : Datetime) (endOpt : Option Datetime)
    (net : Nat → Response) : ApiOutcome :=
  _api_request creds (spo2_url_path date endOpt) net

/-- Concrete creds record from the end-to-end scenario in the spec. -/
def credsEx : Dict :=
  [("client_id", "A"), ("client_secret", "B"),
   ("access_token", "expired"), ("refresh_token", "R1")]

/-- Concrete creds record lacking the refresh token. -/
def credsNoRT : Dict := [("client_id", "A"), ("client_secret", "B")]

/-- Network oracle: first GET 401, refresh 200 with fresh tokens, retry 200
with one SpO2 record. -/
def netRefreshOk : Nat → Response := fun n =>
  if n = 0 then ⟨401, .obj [("errors", .str "expired token")]⟩
  else if n = 1 then
    ⟨200, .obj [("access_token", .str "new"), ("refresh_token", .str "R2")]⟩
  else ⟨200, .arr [.obj [("dateTime", .str "2024-01-01")]]⟩

/-- Network oracle: first GET 401, refresh 200, retry 403. -/
def netRetryFail : Nat → Response := fun n =>
  if n = 0 then ⟨401, .null⟩
  else if n = 1 then
    ⟨200, .obj [("access_token", .str "new"), ("refresh_token", .str "R2")]⟩
  else ⟨403, .obj [("errors", .str "forbidden")]⟩

/-- Network oracle: first GET 401, refresh POST 400. -/
def netRefreshFail : Nat → Response := fun n =>
  if n = 0 then ⟨401, .null⟩
  else ⟨400, .obj [("errors", .str "invalid grant")]⟩

/-- Network oracle: first GET 500. -/
def netServerError : Nat → Response := fun _ =>
  ⟨500, .obj [("errors", .str "server error")]⟩

/-- Concrete url path used by the concrete scenarios. -/
def pathEx : String := "spo2/date/2024-01-01/2024-01-02.json"

theorem isEmpty_false_of_ne_nil {α : Type} {l : List α} (h : l ≠ []) :
    l.isEmpty = false := by
  cases l with
  | nil => exact absurd rfl h
  | cons a l => rfl

theorem dictGet_dictSet_self (d : Dict) (k v : String) :
    dictGet (dictSet d k v) k = some v := by
  induction d with
  | nil => simp [dictSet, dictGet]
  | cons p rest ih =>
    obtain ⟨k1, v1⟩ := p
    by_cases h : k1 = k
    · simp [dictSet, dictGet, h]
    · simp [dictSet, dictGet, h, ih]

theorem dictGet_dictSet_ne {k q : String} (v : String) (h : q ≠ k) (d : Dict) :
    dictGet (dictSet d k v) q = dictGet d q := by
  induction d with
  | nil => simp [dictSet, dictGet, Ne.symm h]
  | cons p rest ih =>
    obtain ⟨k1, v1⟩ := p
    by_cases h1 : k1 = k
    · subst h1
      simp [dictSet, dictGet, Ne.symm h]
    · simp only [dictSet, if_neg h1, dictGet]
      by_cases h2 : k1 = q
      · simp [h2]
      · simp [h2, ih]

theorem refresh_of_no_refresh_token (creds : Dict) (resp : Response)
    (h : dictGet creds "refresh_token" = none) :
    _refresh_access_token creds resp =
      ⟨.error (.keyError "refresh_token"), creds, []⟩ := by
  unfold _refresh_access_token
  rw [h]

theorem refresh_of_httpError (creds : Dict) (resp : Response)
    {rt cid csec : String}
    (h1 : dictGet creds "refresh_token" = some rt)
    (h2 : dictGet creds "client_id" = some cid)
    (h3 : dictGet creds "client_secret" = some csec)
    (hs : isSuccess resp.status = false) :
    _refresh_access_token creds resp =
      ⟨.error (.httpStatusError resp), creds,
       [auth_post_request cid csec
          [("refresh_token", rt), ("grant_type", "refresh_token")]]⟩ := by
  unfold _refresh_access_token
  rw [h1, h2, h3]
  simp [hs]

theorem refresh_of_ok (creds : Dict) (resp : Response)
    {rt cid csec tok rt1 : String}
    (h1 : dictGet creds "refresh_token" = some rt)
    (h2 : dictGet creds "client_id" = some cid)
    (h3 : dictGet creds "client_secret" = some csec)
    (hs : isSuccess resp.status = true)
    (ha : jsonGetStr resp.body "access_token" = some tok)
    (hr : jsonGetStr resp.body "refresh_token" = some rt1) :
    _refresh_access_token creds resp =
      ⟨.ok tok, dictSet (dictSet creds "access_token" tok) "refresh_token" rt1,
       [auth_post_request cid csec
          [("refresh_token", rt), ("grant_type", "refresh_token")]]⟩ := by
  unfold _refresh_access_token
  rw [h1, h2, h3]
  simp [hs, ha, hr]

theorem refresh_creds_frame (creds : Dict) (resp : Response) {q : String}
    (hq1 : q ≠ "access_token") (hq2 : q ≠ "refresh_token") :
    dictGet (_refresh_access_token creds resp).creds q = dictGet creds q := by
  unfold _refresh_access_token
  repeat' split
  all_goals
    simp [dictGet_dictSet_ne _ hq1, dictGet_dictSet_ne _ hq2]

theorem refresh_httpError_inv (creds : Dict) (resp : Response) {r : Response}
    (h : (_refresh_access_token creds resp).result = .error (.httpStatusError r)) :
    r = resp ∧ isSuccess resp.status = false := by
  unfold _refresh_access_token at h
  repeat' split at h
  all_goals simp_all

theorem refresh_no_credentialsError (creds : Dict) (resp : Response)
    (p : Option Json) :
    (_refresh_access_token creds resp).result ≠
      .error (.credentialsError p) := by
  unfold _refresh_access_token
  repeat' split
  all_goals simp

theorem api_creds_frame_aux (creds : Dict) (url_path : String)
    (net : Nat → Response) {q : String}
    (hq1 : q ≠ "access_token") (hq2 : q ≠ "refresh_token") :
    dictGet (_api_request creds url_path net).creds q = dictGet creds q := by
  unfold _api_request
  dsimp only
  repeat' split
  all_goals first
    | rfl
    | exact refresh_creds_frame creds (net 1) hq1 hq2

/-- C4: a fetch with empty (falsy) creds raises `CredentialsError` and
issues zero network requests. -/
theorem api_request_empty_creds (url_path : String) (net : Nat → Response) :
    (_api_request [] url_path net).result = .error (.credentialsError none) ∧
    (_api_request [] url_path net).requests = [] :=
  ⟨rfl, rfl⟩

/-- C5: when the first GET fails with a non-2xx status other than 401, the
original `HTTPStatusError` is re-raised unchanged, creds are untouched, and
the only request issued is that first GET (no refresh, no retry). -/
theorem api_request_non401_error (creds : Dict) (url_path : String)
    (net : Nat → Response)
    (hne : creds ≠ [])
    (hfail : isSuccess (net 0).status = false)
    (h401 : (net 0).status ≠ 401) :
    (_api_request creds url_path net).result =
      .error (.httpStatusError (net 0)) ∧
    (_api_request creds url_path net).creds = creds ∧
    (_api_request creds url_path net).requests =
      [resource_get_request (dictGetD creds "access_token" "")
        (base_url ++ url_path)] := by
  unfold _api_request
  simp [isEmpty_false_of_ne_nil hne, hfail, h401]

/-- C10: with non-empty creds lacking the refresh token, a 401 on the first
GET escapes as a raw `KeyError` (not `CredentialsError`), creds are left
unchanged, and no refresh POST is issued. -/
theorem api_request_missing_refresh_token (creds : Dict) (url_path : String)
    (net : Nat → Response)
    (hne : creds ≠ [])
    (hrt : dictGet creds "refresh_token" = none)
    (h0 : (net 0).status = 401) :
    (_api_request creds url_path net).result = .error (.keyError "refresh_token") ∧
    (_api_request creds url_path net).creds = creds ∧
    (_api_request creds url_path net).requests =
      [resource_get_request (dictGetD creds "access_token" "")
        (base_url ++ url_path)] := by
  have h401f : isSuccess 401 = false := rfl
  unfold _api_request
  simp [isEmpty_false_of_ne_nil hne, h0, h401f,
        refresh_of_no_refresh_token creds (net 1) hrt]

/-- C3: when the first GET returns 401 and the token-refresh POST itself
fails with an HTTP error status, the fetch raises `CredentialsError` carrying
the JSON body of the refresh response, and creds are left exactly as before. -/
theorem api_request_refresh_post_fails (creds : Dict) (url_path : String)
    (net : Nat → Response) {rt cid csec : String}
    (hne : creds ≠ [])
    (h1 : dictGet creds "refresh_token" = some rt)
    (h2 : dictGet creds "client_id" = some cid)
    (h3 : dictGet creds "client_secret" = some csec)
    (h0 : (net 0).status = 401)
    (hrf : isSuccess (net 1).status = false) :
    (_api_request creds url_path net).result =
      .error (.credentialsError (some (net 1).body)) ∧
    (_api_request creds url_path net).creds = creds := by
  have h401f : isSuccess 401 = false := rfl
  unfold _api_request
  simp [isEmpty_false_of_ne_nil hne, h0, h401f,
        refresh_of_httpError creds (net 1) h1 h2 h3 hrf]

/-- C1: with non-empty creds holding a valid refresh token, a 401 on the
first GET triggers exactly one token-refresh POST and exactly one retried
GET; when the retry returns 2xx the call returns the JSON body of the retry
and the creds access and refresh tokens equal the values from the refresh
response. -/
theorem api_request_401_refresh_retry (creds : Dict) (url_path : String)
    (net : Nat → Response) {rt cid csec tok rt1 : String}
    (hne : creds ≠ [])
    (h1 : dictGet creds "refresh_token" = some rt)
    (h2 : dictGet creds "client_id" = some cid)
    (h3 : dictGet creds "client_secret" = some csec)
    (h0 : (net 0).status = 401)
    (hrs : isSuccess (net 1).status = true)
    (ha : jsonGetStr (net 1).body "access_token" = some tok)
    (hr : jsonGetStr (net 1).body "refresh_token" = some rt1)
    (h2s : isSuccess (net 2).status = true) :
    (_api_request creds url_path net).result = .ok (net 2).body ∧
    dictGet (_api_request creds url_path net).creds "access_token" = some tok ∧
    dictGet (_api_request creds url_path net).creds "refresh_token" = some rt1 ∧
    (_api_request creds url_path net).requests =
      [resource_get_request (dictGetD creds "access_token" "")
        (base_url ++ url_path),
       auth_post_request cid csec
        [("refresh_token", rt), ("grant_type", "refresh_token")],
       resource_get_request tok (base_url ++ url_path)] := by
  have h401f : isSuccess 401 = false := rfl
  unfold _api_request
  simp [isEmpty_false_of_ne_nil hne, h0, h401f, h2s,
        refresh_of_ok creds (net 1) h1 h2 h3 hrs ha hr,
        dictGet_dictSet_self,
        dictGet_dictSet_ne _
          (show ("access_token" : String) ≠ "refresh_token" by decide)]

/-- C2: when the first GET returns 401 and, after a successful refresh, the
retried GET fails with any HTTP error status, the fetch raises
`CredentialsError` carrying the JSON body of the failing retry response; the
request log is exactly one GET, one refresh POST and one retried GET, so no
further refresh or retry is attempted. -/
theorem api_request_retry_fails (creds : Dict) (url_path : String)
    (net : Nat → Response) {rt cid csec tok rt1 : String}
    (hne : creds ≠ [])
    (h1 : dictGet creds "refresh_token" = some rt)
    (h2 : dictGet creds "client_id" = some cid)
    (h3 : dictGet creds "client_secret" = some csec)
    (h0 : (net 0).status = 401)
    (hrs : isSuccess (net 1).status = true)
    (ha : jsonGetStr (net 1).body "access_token" = some tok)
    (hr : jsonGetStr (net 1).body "refresh_token" = some rt1)
    (h2f : isSuccess (net 2).status = false) :
    (_api_request creds url_path net).result =
      .error (.credentialsError (some (net 2).body)) ∧
    ((_api_request creds url_path net).requests.map
        (fun q => (q.method, q.url))) =
      [("GET", base_url ++ url_path), ("POST", token_url),
       ("GET", base_url ++ url_path)] := by
  have h401f : isSuccess 401 = false := rfl
  unfold _api_request
  simp [isEmpty_false_of_ne_nil hne, h0, h401f, h2f,
        refresh_of_ok creds (net 1) h1 h2 h3 hrs ha hr,
        resource_get_request, auth_post_request]

/-- C8: no execution of the fetch operation mutates `client_id` or
`client_secret`; every key other than `access_token` and `refresh_token` is
preserved; and when the first GET succeeds no field of creds changes at
all. -/
theorem api_request_creds_frame (creds : Dict) (url_path : String)
    (net : Nat → Response) :
    dictGet (_api_request creds url_path net).creds "client_id" =
      dictGet creds "client_id" ∧
    dictGet (_api_request creds url_path net).creds "client_secret" =
      dictGet creds "client_secret" ∧
    (∀ q, q ≠ "access_token" → q ≠ "refresh_token" →
      dictGet (_api_request creds url_path net).creds q = dictGet creds q) ∧
    (isSuccess (net 0).status = true →
      (_api_request creds url_path net).creds = creds) := by
  refine ⟨?_, ?_, ?_, ?_⟩
  · exact api_creds_frame_aux creds url_path net (by decide) (by decide)
  · exact api_creds_frame_aux creds url_path net (by decide) (by decide)
  · intro q hq1 hq2
    exact api_creds_frame_aux creds url_path net hq1 hq2
  · intro h
    unfold _api_request
    split
    · rfl
    · simp [h]

/-- C6: `get_spo2` with no end date behaves exactly like `get_spo2` with the
end date equal to the start date, and the path it queries is
`spo2/date/YYYY-MM-DD/YYYY-MM-DD.json` for that single day. -/
theorem get_spo2_single_day (creds : Dict) (d : Datetime)
    (net : Nat → Response) :
    get_spo2 creds d none net = get_spo2 creds d (some d) net ∧
    spo2_url_path d none =
      "spo2/date/" ++ strftimeYMD d ++ "/" ++ strftimeYMD d ++ ".json" :=
  ⟨rfl, rfl⟩

/-- C9: whenever `get_spo2` issues any request (creds non-empty), the first
request is a GET to the fixed base URL plus the SpO2 path, with header
`Authorization: Bearer <access_token>`, and the token defaults to the empty
string when creds has no `access_token` key. -/
theorem get_spo2_request_shape (creds : Dict) (d e : Datetime)
    (net : Nat → Response) (hne : creds ≠ []) :
    (get_spo2 creds d (some e) net).requests.head? =
      some (⟨"GET",
        "https://api.fitbit.com/1/user/-/" ++
          ("spo2/date/" ++ strftimeYMD d ++ "/" ++ strftimeYMD e ++ ".json"),
        [("Authorization", "Bearer " ++ dictGetD creds "access_token" "")],
        []⟩ : Request) ∧
    (dictGet creds "access_token" = none →
      dictGetD creds "access_token" "" = "") := by
  constructor
  · unfold get_spo2 _api_request
    simp only [isEmpty_false_of_ne_nil hne, Bool.false_eq_true, if_false]
    repeat' split
    all_goals rfl
  · intro h
    simp [dictGetD, h]

/-- C7 counterexample: the fetch with empty creds raises `CredentialsError`
with no argument at all, so that `CredentialsError` does not carry any server
error payload. -/
theorem api_request_empty_creds_no_payload :
    (_api_request [] "spo2/date/2024-01-01/2024-01-02.json"
        (fun _ => ⟨200, .null⟩)).result =
      .error (.credentialsError none) :=
  rfl

/-- C7 (amended): the `CredentialsError` raised for empty creds carries no
payload; every `CredentialsError` raised with non-empty creds carries the
JSON body of the failing server response (the failed refresh POST or the
failed retried GET). -/
theorem api_request_credentialsError_payload (creds : Dict)
    (url_path : String) (net : Nat → Response) (p : Option Json) :
    (creds = [] → (_api_request creds url_path net).result =
      .error (.credentialsError none)) ∧
    ((_api_request creds url_path net).result =
        .error (.credentialsError p) → creds ≠ [] →
      (isSuccess (net 1).status = false ∧ p = some (net 1).body) ∨
      (isSuccess (net 2).status = false ∧ p = some (net 2).body)) := by
  constructor
  · rintro rfl
    rfl
  · intro hres hne
    have h401f : isSuccess 401 = false := rfl
    unfold _api_request at hres
    simp only [isEmpty_false_of_ne_nil hne, Bool.false_eq_true, if_false] at hres
    by_cases hs0 : isSuccess (net 0).status
    · simp [hs0] at hres
    · by_cases h401 : (net 0).status = 401
      · cases hro : (_refresh_access_token creds (net 1)).result with
        | ok tok =>
          by_cases hs2 : isSuccess (net 2).status
          · simp [hs0, h401, h401f, hro, hs2] at hres
          · simp [hs0, h401, h401f, hro, hs2] at hres
            right
            exact ⟨by simpa using hs2, hres.symm⟩
        | error e =>
          cases e with
          | credentialsError pp =>
            exact absurd hro (refresh_no_credentialsError creds (net 1) pp)
          | keyError k =>
            simp [hs0, h401, h401f, hro] at hres
          | httpStatusError r =>
            simp [hs0, h401, h401f, hro] at hres
            obtain ⟨hr1, hr2⟩ := refresh_httpError_inv creds (net 1) hro
            subst hr1
            left
            exact ⟨hr2, hres.symm⟩
      · simp [hs0, h401] at hres

theorem api_request_401_refresh_retry_witness :
    credsEx ≠ [] ∧
    dictGet credsEx "refresh_token" = some "R1" ∧
    (netRefreshOk 0).status = 401 ∧
    isSuccess (netRefreshOk 1).status = true ∧
    isSuccess (netRefreshOk 2).status = true ∧
    (_api_request credsEx pathEx netRefreshOk).result =
      .ok (netRefreshOk 2).body ∧
    dictGet (_api_request credsEx pathEx netRefreshOk).creds "access_token" =
      some "new" ∧
    dictGet (_api_request credsEx pathEx netRefreshOk).creds "refresh_token" =
      some "R2" ∧
    (_api_request credsEx pathEx netRefreshOk).requests =
      [resource_get_request "expired" (base_url ++ pathEx),
       auth_post_request "A" "B"
        [("refresh_token", "R1"), ("grant_type", "refresh_token")],
       resource_get_request "new" (base_url ++ pathEx)] := by
  have T := api_request_401_refresh_retry credsEx pathEx netRefreshOk
    (by decide) rfl rfl rfl rfl rfl rfl rfl rfl
  exact ⟨by decide, rfl, rfl, rfl, rfl, T.1, T.2.1, T.2.2.1, T.2.2.2⟩

theorem api_request_retry_fails_witness :
    credsEx ≠ [] ∧
    (netRetryFail 0).status = 401 ∧
    isSuccess (netRetryFail 1).status = true ∧
    isSuccess (netRetryFail 2).status = false ∧
    (_api_request credsEx pathEx netRetryFail).result =
      .error (.credentialsError (some (netRetryFail 2).body)) ∧
    ((_api_request credsEx pathEx netRetryFail).requests.map
        (fun q => (q.method, q.url))) =
      [("GET", base_url ++ pathEx), ("POST", token_url),
       ("GET", base_url ++ pathEx)] := by
  have T := api_request_retry_fails credsEx pathEx netRetryFail
    (by decide) rfl rfl rfl rfl rfl rfl rfl rfl
  exact ⟨by decide, rfl, rfl, rfl, T.1, T.2⟩

theorem api_request_refresh_post_fails_witness :
    credsEx ≠ [] ∧
    (netRefreshFail 0).status = 401 ∧
    isSuccess (netRefreshFail 1).status = false ∧
    (_api_request credsEx pathEx netRefreshFail).result =
      .error (.credentialsError (some (netRefreshFail 1).body)) ∧
    (_api_request credsEx pathEx netRefreshFail).creds = credsEx := by
  have T := api_request_refresh_post_fails credsEx pathEx netRefreshFail
    (by decide) rfl rfl rfl rfl rfl
  exact ⟨by decide, rfl, rfl, T.1, T.2⟩

theorem api_request_non401_error_witness :
    credsEx ≠ [] ∧
    isSuccess (netServerError 0).status = false ∧
    (netServerError 0).status ≠ 401 ∧
    (_api_request credsEx pathEx netServerError).result =
      .error (.httpStatusError (netServerError 0)) ∧
    (_api_request credsEx pathEx netServerError).creds = credsEx ∧
    (_api_request credsEx pathEx netServerError).requests =
      [resource_get_request "expired" (base_url ++ pathEx)] := by
  have T := api_request_non401_error credsEx pathEx netServerError
    (by decide) rfl (by decide)
  exact ⟨by decide, rfl, by decide, T.1, T.2.1, T.2.2⟩

theorem api_request_missing_refresh_token_witness :
    credsNoRT ≠ [] ∧
    dictGet credsNoRT "refresh_token" = none ∧
    (netRefreshFail 0).status = 401 ∧
    (_api_request credsNoRT pathEx netRefreshFail).result =
      .error (.keyError "refresh_token") ∧
    (_api_request credsNoRT pathEx netRefreshFail).creds = credsNoRT ∧
    (_api_request credsNoRT pathEx netRefreshFail).requests =
      [resource_get_request "" (base_url ++ pathEx)] := by
  have T := api_request_missing_refresh_token credsNoRT pathEx netRefreshFail
    (by decide) rfl rfl
  exact ⟨by decide, rfl, rfl, T.1, T.2.1, T.2.2⟩

theorem api_request_creds_frame_witness :
    dictGet (_api_request credsEx pathEx netRefreshOk).creds "client_id" =
      dictGet credsEx "client_id" ∧
    dictGet (_api_request credsEx pathEx netRefreshOk).creds "client_secret" =
      dictGet credsEx "client_secret" ∧
    ("date" : String) ≠ "access_token" ∧
    ("date" : String) ≠ "refresh_token" ∧
    dictGet (_api_request credsEx pathEx netRefreshOk).creds "date" =
      dictGet credsEx "date" ∧
    isSuccess ((fun _ => (⟨200, Json.null⟩ : Response)) 0).status = true ∧
    (_api_request credsEx pathEx (fun _ => ⟨200, Json.null⟩)).creds = credsEx := by
  have T := api_request_creds_frame credsEx pathEx netRefreshOk
  have U := api_request_creds_frame credsEx pathEx (fun _ => ⟨200, Json.null⟩)
  exact ⟨T.1, T.2.1, by decide, by decide,
    T.2.2.1 "date" (by decide) (by decide), rfl, U.2.2.2 rfl⟩

theorem api_request_credentialsError_payload_witness :
    (_api_request credsEx pathEx netRefreshFail).result =
      .error (.credentialsError (some (netRefreshFail 1).body)) ∧
    credsEx ≠ [] ∧
    ((isSuccess (netRefreshFail 1).status = false ∧
        (some (netRefreshFail 1).body : Option Json) =
          some (netRefreshFail 1).body) ∨
      (isSuccess (netRefreshFail 2).status = false ∧
        (some (netRefreshFail 1).body : Option Json) =
          some (netRefreshFail 2).body)) :=
  ⟨rfl, by decide,
   (api_request_credentialsError_payload credsEx pathEx netRefreshFail
      (some (netRefreshFail 1).body)).2 rfl (by decide)⟩

theorem get_spo2_request_shape_witness :
    credsEx ≠ [] ∧
    (get_spo2 credsEx ⟨2024, 1, 1⟩ (some ⟨2024, 1, 2⟩)
        netRefreshOk).requests.head? =
      some (⟨"GET",
        "https://api.fitbit.com/1/user/-/" ++
          ("spo2/date/" ++ strftimeYMD ⟨2024, 1, 1⟩ ++ "/" ++
            strftimeYMD ⟨2024, 1, 2⟩ ++ ".json"),
        [("Authorization", "Bearer " ++ dictGetD credsEx "access_token" "")],
        []⟩ : Request) :=
  ⟨by decide,
   (get_spo2_request_shape credsEx ⟨2024, 1, 1⟩ ⟨2024, 1, 2⟩ netRefreshOk
      (by decide)).1⟩

end Fitdata
